import Mathlib

/-!
Shallow embedding of the culturalite event-listing backend: the public
event listing endpoint (filtering, pagination, caching) and the JWT
authentication endpoints (register, login, refresh, logout), translated
from the Django source under apps/backend and culturalite-backend.
-/

namespace Culturalite

/-- An event category row: unique name and URL-safe slug
(apps/backend/apps/events/models.py, Category). -/
structure Category where
  name : String
  slug : String
deriving Repr, DecidableEq

/-- An event row with its moderation status and joined category
(apps/backend/apps/events/models.py, Event). Status is one of
"pending", "approved", "rejected". -/
structure Event where
  id : Nat
  title : String
  description : String
  city : String
  eventDate : Int
  imageUrl : String
  status : String
  category : Category
deriving Repr, DecidableEq

/-- Case-folded characters of a string, as the case-insensitive
icontains lookup folds case. -/
def foldCase (s : String) : List Char := s.toList.map Char.toLower

/-- Character-list test: the first list starts the second. -/
def startsChars : List Char → List Char → Bool
  | [], _ => true
  | _ :: _, [] => false
  | a :: as, b :: bs => a == b && startsChars as bs

/-- Character-list test: the first list occurs somewhere inside the second. -/
def occursIn (needle : List Char) : List Char → Bool
  | [] => needle.isEmpty
  | b :: bs => startsChars needle (b :: bs) || occursIn needle bs

/-- Django icontains lookup: case-insensitive substring match. -/
def icontains (field q : String) : Bool := occursIn (foldCase q) (foldCase field)

/-- Query parameters of a GET /events request; none models an absent
parameter. -/
structure ListingRequest where
  city : Option String
  category : Option String
  page : Option String
  pageSize : Option String
deriving Repr, DecidableEq

/-- Stable insertion of an event into a list ordered by descending
event date. -/
def insertByDateDesc (e : Event) : List Event → List Event
  | [] => [e]
  | x :: xs => if e.eventDate > x.eventDate then e :: x :: xs else x :: insertByDateDesc e xs

/-- Ordering by event date descending (order_by "-event_date"). -/
def sortByDateDesc : List Event → List Event
  | [] => []
  | e :: es => insertByDateDesc e (sortByDateDesc es)

/-- EventListAPIView.get_queryset: approved events only, optional
icontains filters on city and on the linked category name, ordered by
event date descending. -/
def get_queryset (db : List Event) (req : ListingRequest) : List Event :=
  let q0 := db.filter (fun e => e.status == "approved")
  let q1 := match req.city with
    | none => q0
    | some c => q0.filter (fun e => icontains e.city c)
  let q2 := match req.category with
    | none => q1
    | some c => q1.filter (fun e => icontains e.category.name c)
  sortByDateDesc q2

/-- Parse a string of decimal digits; none when the string is empty or
holds a non-digit (models int(s) raising ValueError). -/
def parseNat (s : String) : Option Nat :=
  if s.toList ≠ [] ∧ s.toList.all Char.isDigit then
    some (s.toList.foldl (fun acc c => acc * 10 + (c.toNat - 48)) 0)
  else none

/-- CustomPageNumberPagination page size: default 20, client override
through the page_size parameter, strictly positive, capped at
max_page_size 100; an invalid value falls back to the default. -/
def get_page_size (req : ListingRequest) : Nat :=
  match req.pageSize with
  | none => 20
  | some s =>
    match parseNat s with
    | none => 20
    | some n => if n = 0 then 20 else min n 100

/-- Django Paginator.num_pages with allow_empty_first_page:
ceil(max 1 count / per_page). -/
def num_pages (count size : Nat) : Nat := (max 1 count + size - 1) / size

/-- DRF get_page_number followed by Django Paginator.validate_number:
the parameter defaults to 1, the string "last" maps to the final page,
anything else is parsed as a number; none models PageNotAnInteger. -/
def resolve_page_number (pageParam : Option String) (np : Nat) : Option Nat :=
  match pageParam with
  | none => some 1
  | some s => if s == "last" then some np else parseNat s

/-- CustomPageNumberPagination.paginate_queryset: the page slice, or an
error for an invalid or out-of-range page number, which the view
surfaces as HTTP 404 NotFound instead of a 500. -/
def paginate_queryset (qs : List Event) (req : ListingRequest) : Except Unit (List Event) :=
  match resolve_page_number req.page (num_pages qs.length (get_page_size req)) with
  | none => Except.error ()
  | some n =>
    if n < 1 then Except.error ()
    else if num_pages qs.length (get_page_size req) < n then Except.error ()
    else Except.ok ((qs.drop ((n - 1) * get_page_size req)).take (get_page_size req))

/-- Paginated response payload: total count plus the page items. -/
structure PageData where
  count : Nat
  results : List Event
deriving Repr, DecidableEq

/-- HTTP response of the listing endpoint. -/
structure HttpResponse where
  status : Nat
  body : PageData
deriving Repr, DecidableEq

/-- The shared key-value cache. The failing flag models a cache-store
outage; per the collaborator contract (spec section 6, a cache with
graceful degradation on failure) a failing get degrades to a miss and a
failing set to a no-op. -/
structure Cache where
  entries : List (String × PageData)
  failing : Bool
deriving Repr, DecidableEq

/-- Cache read: a miss when the store is failing. -/
def cacheGet (c : Cache) (k : String) : Option PageData :=
  if c.failing then none else c.entries.lookup k

/-- Cache write with TTL: a no-op when the store is failing. -/
def cacheSet (c : Cache) (k : String) (v : PageData) : Cache :=
  if c.failing then c else {c with entries := (k, v) :: c.entries}

/-- EventListAPIView.get_cache_key: built from the city, category and
page parameters only (absent city and category normalize to the empty
string, absent page to "1"); the md5 step is a deterministic function
of this parameter string and is omitted. -/
def get_cache_key (req : ListingRequest) : String :=
  "city:" ++ req.city.getD "" ++ "|category:" ++ req.category.getD "" ++
    "|page:" ++ req.page.getD "1"

/-- The cache-free computation inside EventListAPIView.list: filter,
paginate, build the paginated payload; an invalid page yields 404 with
an empty body. -/
def list_compute (db : List Event) (req : ListingRequest) : HttpResponse :=
  match paginate_queryset (get_queryset db req) req with
  | Except.error _ => {status := 404, body := {count := 0, results := []}}
  | Except.ok page =>
      {status := 200, body := {count := (get_queryset db req).length, results := page}}

/-- EventListAPIView.list: serve the cached payload on a hit; otherwise
compute, cache the payload of a successful response for the TTL, and
return it; NotFound propagates as 404 and is never cached. -/
def list_endpoint (db : List Event) (c : Cache) (req : ListingRequest) :
    HttpResponse × Cache :=
  match cacheGet c (get_cache_key req) with
  | some payload => ({status := 200, body := payload}, c)
  | none =>
    if (list_compute db req).status = 200 then
      (list_compute db req, cacheSet c (get_cache_key req) (list_compute db req).body)
    else (list_compute db req, c)

/-- Invariant: every payload in the cache holds approved events only. -/
def CacheApproved (c : Cache) : Prop :=
  ∀ kv ∈ c.entries, ∀ e ∈ (Prod.snd kv).results, e.status = "approved"

/-- State of the Token Service revocation list: the jti values of
blacklisted refresh tokens. -/
structure AuthState where
  blacklist : List String
deriving Repr, DecidableEq

/-- A request carrying an optional refresh_token cookie and an optional
refresh field in the body. -/
structure TokenRequest where
  cookieToken : Option String
  bodyToken : Option String
deriving Repr, DecidableEq

/-- Python truthiness of an optional string: None and the empty string
are falsy. -/
def truthyStr (o : Option String) : Option String :=
  match o with
  | none => none
  | some s => if s = "" then none else some s

/-- Dual-source token lookup,
request.COOKIES.get("refresh_token") or request.data.get("refresh"),
with Python or-chaining over falsy values. -/
def pick_token (cookieTok bodyTok : Option String) : Option String :=
  match truthyStr cookieTok with
  | some s => some s
  | none => truthyStr bodyTok

/-- Modelled from the spec: simplejwt refresh-token decoding (the
library and the project settings module are outside src). A token
string of the form "rt." followed by the jti is well formed; anything
else is malformed and raises TokenError. -/
def parse_refresh (s : String) : Option String :=
  match s.toList with
  | 'r' :: 't' :: '.' :: rest => some (String.mk rest)
  | _ => none

/-- Modelled from the spec: RefreshToken(s) construction, which
validates the token and checks the blacklist, raising TokenError
(modelled as none) for a malformed or blacklisted token. -/
def refresh_token_init (st : AuthState) (s : String) : Option String :=
  match parse_refresh s with
  | none => none
  | some jti => if st.blacklist.contains jti then none else some jti

/-- Response of the refresh endpoint: status, access token in the body,
and the refresh_token cookie value set by the response, when any. -/
structure RefreshResult where
  status : Nat
  access : Option String
  newCookie : Option String
deriving Repr, DecidableEq

/-- culturalite-backend/apps/users/views.py refresh_token_view:
dual-source token lookup, 400 when missing, 401 on TokenError,
otherwise 200 with a fresh access token. The hasRotate argument models
hasattr(refresh, "rotate"), which is False for simplejwt RefreshToken;
even when it is true the cookie is reset to str(refresh), the very
same token, and the blacklist is never written. -/
def refresh_token_view (hasRotate : Bool) (st : AuthState) (req : TokenRequest) :
    RefreshResult × AuthState :=
  match pick_token req.cookieToken req.bodyToken with
  | none => ({status := 400, access := none, newCookie := none}, st)
  | some tok =>
    match refresh_token_init st tok with
    | none => ({status := 401, access := none, newCookie := none}, st)
    | some jti =>
      ({status := 200, access := some ("acc." ++ jti),
        newCookie := if hasRotate then some tok else none}, st)

/-- Response of the logout endpoint: status and whether the response
cleared the refresh_token cookie. -/
structure LogoutResult where
  status : Nat
  cookieCleared : Bool
deriving Repr, DecidableEq

/-- culturalite-backend/apps/users/views.py logout_view: dual-source
token lookup, 400 when missing; RefreshToken(s) and token.blacklist()
run inside a try block whose generic except returns 400, so a
malformed or already-blacklisted token, or a failing blacklist write
(blacklistFails), yields 400 and the cookie is not cleared; only the
fully successful path returns 200 and deletes the cookie. -/
def logout_view (st : AuthState) (req : TokenRequest) (blacklistFails : Bool) :
    LogoutResult × AuthState :=
  match pick_token req.cookieToken req.bodyToken with
  | none => ({status := 400, cookieCleared := false}, st)
  | some tok =>
    match refresh_token_init st tok with
    | none => ({status := 400, cookieCleared := false}, st)
    | some jti =>
      if blacklistFails then ({status := 400, cookieCleared := false}, st)
      else ({status := 200, cookieCleared := true}, {blacklist := jti :: st.blacklist})

/-- Attributes of a Set-Cookie emitted by the login view. -/
structure CookieAttrs where
  value : String
  maxAge : Nat
  httpOnly : Bool
  secureFlag : Bool
  sameSite : String
  path : String
deriving Repr, DecidableEq

/-- Response of the login endpoint: status, body fields, and the
refresh_token cookie set on it, when any. -/
structure LoginResponse where
  status : Nat
  bodyAccess : Option String
  bodyRefresh : Option String
  cookie : Option CookieAttrs
deriving Repr, DecidableEq

/-- Modelled from the spec: TokenObtainPairView.post with
CustomTokenObtainPairSerializer (simplejwt is outside src): wrong
credentials give 401 with no tokens, correct credentials a 200 body
holding the access and refresh token pair. -/
def super_token_obtain_post (credsOk : Bool) (uid : Nat) : Option (String × String) :=
  if credsOk then some ("acc." ++ toString uid, "rt." ++ toString uid) else none

/-- culturalite-backend/apps/users/views.py
CustomTokenObtainPairView.post: on a 200 with a truthy refresh token,
pops the refresh token from the body and sets it as an httpOnly cookie
scoped to /api/auth/ with a 7-day max age, SameSite Lax, and the
secure flag on unless the host starts with localhost. -/
def custom_login_post (credsOk : Bool) (uid : Nat) (host : String) : LoginResponse :=
  match super_token_obtain_post credsOk uid with
  | none => {status := 401, bodyAccess := none, bodyRefresh := none, cookie := none}
  | some (acc, ref) =>
    if ref = "" then
      {status := 200, bodyAccess := some acc, bodyRefresh := some ref, cookie := none}
    else
      {status := 200, bodyAccess := some acc, bodyRefresh := none,
       cookie := some {value := ref, maxAge := 7 * 24 * 60 * 60, httpOnly := true,
                       secureFlag := !(startsChars "localhost".toList host.toList),
                       sameSite := "Lax", path := "/api/auth/"}}

/-- DRF MinLengthValidator message for the password field. -/
def msgMinLength : String := "Ensure this field has at least 8 characters."

/-- DRF blank-field message. -/
def msgBlank : String := "This field may not be blank."

/-- validators.py length message. -/
def msgTooShort : String := "Password must be at least 8 characters long."

/-- validators.py uppercase message. -/
def msgUpper : String := "Password must contain at least one uppercase letter."

/-- validators.py lowercase message. -/
def msgLower : String := "Password must contain at least one lowercase letter."

/-- validators.py digit message. -/
def msgDigit : String := "Password must contain at least one number."

/-- validators.py common-password message. -/
def msgCommon : String := "This password is too common. Please choose a more secure password."

/-- serializers.py duplicate-email message. -/
def msgEmailTaken : String := "A user with this email already exists."

/-- serializers.py password confirmation message. -/
def msgConfirm : String := "Password confirmation does not match password."

/-- validators.py CustomPasswordValidator.validate: checks length,
uppercase, lowercase and digit, and collects every violated rule. -/
def customPasswordErrors (p : String) : List String :=
  (if p.length < 8 then [msgTooShort] else []) ++
  (if p.toList.any (fun c => c.isUpper) then [] else [msgUpper]) ++
  (if p.toList.any (fun c => c.isLower) then [] else [msgLower]) ++
  (if p.toList.any (fun c => c.isDigit) then [] else [msgDigit])

/-- validators.py NoCommonPasswordValidator.COMMON_PASSWORDS. -/
def commonPasswords : List String :=
  ["password", "password123", "123456", "123456789", "qwerty",
   "abc123", "password1", "admin", "letmein", "welcome",
   "monkey", "1234567890", "dragon", "master", "hello",
   "login", "pass", "admin123", "root", "user"]

/-- Python str.lower for ASCII strings. -/
def lowerString (s : String) : String := String.mk (s.toList.map Char.toLower)

/-- validators.py NoCommonPasswordValidator.validate. -/
def commonPasswordErrors (p : String) : List String :=
  if commonPasswords.contains (lowerString p) then [msgCommon] else []

/-- Modelled from the spec: django validate_password under the
AUTH_PASSWORD_VALIDATORS wiring (the settings module is outside src);
per the spec it runs CustomPasswordValidator and
NoCommonPasswordValidator and aggregates every validator error; the
serializer passes no user, so the similarity validator returns
immediately. -/
def validate_password_errors (p : String) : List String :=
  customPasswordErrors p ++ commonPasswordErrors p

/-- apps/backend/apps/users/serializers.py password field pipeline:
allow_blank False and min_length 8 run as field validators, and only
when they pass does DRF call the validate_password method (a raised
field-validator error skips the validate_<field> hook). -/
def passwordFieldErrors (p : String) : List String :=
  if p = "" then [msgBlank]
  else if p.length < 8 then [msgMinLength]
  else validate_password_errors p

/-- The registration payload. -/
structure RegData where
  email : String
  password : String
  passwordConfirm : String
  firstName : String
  lastName : String
  organizationName : String
deriving Repr, DecidableEq

/-- The credential store: the emails of existing User rows and the
(email, role) pairs of existing Profile rows. -/
structure RegDB where
  users : List String
  profiles : List (String × String)
deriving Repr, DecidableEq

/-- UserRegistrationSerializer field-level validation: unique email,
the password pipeline, required non-blank names. -/
def registration_field_errors (db : RegDB) (d : RegData) : List String :=
  (if db.users.contains d.email then [msgEmailTaken] else []) ++
  passwordFieldErrors d.password ++
  (if d.firstName = "" then [msgBlank] else []) ++
  (if d.lastName = "" then [msgBlank] else [])

/-- UserRegistrationSerializer validation: field-level errors first;
the cross-field password_confirm comparison in validate runs only when
every field validated. -/
def serializer_errors (db : RegDB) (d : RegData) : List String :=
  if registration_field_errors db d = [] then
    (if d.password = d.passwordConfirm then [] else [msgConfirm])
  else registration_field_errors db d

/-- UserRegistrationSerializer.create: two sequential writes with no
transaction around them; the User row is committed first, then the
Profile row with role forced to vendor; when the profile write fails
(profileFails) the exception propagates and the User row stays. -/
def serializer_create (db : RegDB) (d : RegData) (profileFails : Bool) :
    Option String × RegDB :=
  if profileFails then (none, {db with users := d.email :: db.users})
  else (some d.email,
    {users := d.email :: db.users, profiles := (d.email, "vendor") :: db.profiles})

/-- Response of the registration endpoint. -/
structure RegResponse where
  status : Nat
  errors : List String
deriving Repr, DecidableEq

/-- culturalite-backend/apps/users/views.py register_view: 400 with the
full error list on invalid input; on valid input it runs create inside
a try whose except returns 500, keeping whatever state create already
wrote. -/
def register_view (db : RegDB) (d : RegData) (profileFails : Bool) :
    RegResponse × RegDB :=
  if serializer_errors db d = [] then
    match serializer_create db d profileFails with
    | (some _, db2) => ({status := 201, errors := []}, db2)
    | (none, db2) => ({status := 500, errors := []}, db2)
  else ({status := 400, errors := serializer_errors db d}, db)

/-- A user row joined with its optional profile, as the token claim
code sees it. -/
structure UserRec where
  username : String
  firstName : String
  lastName : String
  hasProfile : Bool
  role : String
  organizationName : String
deriving Repr, DecidableEq

/-- Whitespace test used by str.strip. -/
def isSpaceChar (c : Char) : Bool := c == ' ' || c == '\t' || c == '\n' || c == '\r'

/-- Python str.strip: drop whitespace from both ends. -/
def pythonStrip (s : String) : String :=
  String.mk (((s.toList.dropWhile isSpaceChar).reverse.dropWhile isSpaceChar).reverse)

/-- django User.get_full_name: first and last name joined with a space
and stripped. -/
def get_full_name (u : UserRec) : String := pythonStrip (u.firstName ++ " " ++ u.lastName)

/-- apps/backend/apps/users/serializers.py
CustomTokenObtainPairSerializer.get_token name claim:
user.get_full_name() or user.username; the organization name is never
consulted. -/
def token_claim_name (u : UserRec) : String :=
  if get_full_name u = "" then u.username else get_full_name u

/-- get_token role claim: the profile role, defaulting to vendor when
the profile row is missing. -/
def token_claim_role (u : UserRec) : String :=
  if u.hasProfile then u.role else "vendor"

/-- culturalite-backend/apps/users/models.py UserProfile.display_name:
full name when both parts are present, else the organization name,
else the username. -/
def display_name (u : UserRec) : String :=
  if u.firstName ≠ "" ∧ u.lastName ≠ "" then u.firstName ++ " " ++ u.lastName
  else if u.organizationName ≠ "" then u.organizationName
  else u.username

/-- Concrete event store used to evaluate the endpoint: two approved
events and one pending event, mirroring the scenario of spec
section 8. -/
def dbW : List Event :=
  [{id := 1, title := "Carnatic Night", description := "Concert", city := "Chennai",
    eventDate := 5, imageUrl := "http://img/1", status := "approved",
    category := {name := "Music", slug := "music"}},
   {id := 2, title := "Folk Dance", description := "Dance", city := "Mumbai",
    eventDate := 3, imageUrl := "http://img/2", status := "approved",
    category := {name := "Dance", slug := "dance"}},
   {id := 3, title := "Delhi Expo", description := "Expo", city := "Delhi",
    eventDate := 9, imageUrl := "http://img/3", status := "pending",
    category := {name := "Music", slug := "music"}}]

/-- An empty, healthy cache. -/
def cacheW : Cache := {entries := [], failing := false}

/-- An empty cache whose store is failing. -/
def cacheFailW : Cache := {entries := [], failing := true}

/-- A listing request with no parameters. -/
def reqW : ListingRequest := {city := none, category := none, page := none, pageSize := none}

/-- A listing request for page 999. -/
def reqPage999 : ListingRequest :=
  {city := none, category := none, page := some "999", pageSize := none}

/-- A listing request that only overrides page_size. -/
def reqSize5 : ListingRequest :=
  {city := none, category := none, page := none, pageSize := some "5"}

/-- A user with no first or last name but with an organization name. -/
def userOrgOnly : UserRec :=
  {username := "org@example.com", firstName := "", lastName := "",
   hasProfile := true, role := "vendor", organizationName := "Acme Events"}

/-- A valid registration payload. -/
def regDataW : RegData :=
  {email := "vendor@example.com", password := "GoodPass1", passwordConfirm := "GoodPass1",
   firstName := "Jo", lastName := "Doe", organizationName := ""}

/-- An empty credential store. -/
def regDB0 : RegDB := {users := [], profiles := []}

theorem mem_insertByDateDesc {a e : Event} {l : List Event} :
    a ∈ insertByDateDesc e l ↔ a = e ∨ a ∈ l := by
  induction l with
  | nil => simp [insertByDateDesc]
  | cons x xs ih =>
    simp only [insertByDateDesc]
    split
    · simp [List.mem_cons]
    · simp only [List.mem_cons, ih]
      tauto

theorem mem_sortByDateDesc {a : Event} {l : List Event} :
    a ∈ sortByDateDesc l ↔ a ∈ l := by
  induction l with
  | nil => simp [sortByDateDesc]
  | cons e es ih => simp [sortByDateDesc, mem_insertByDateDesc, ih]

theorem get_queryset_approved (db : List Event) (req : ListingRequest) :
    ∀ e ∈ get_queryset db req, e.status = "approved" := by
  intro e he
  simp only [get_queryset] at he
  rw [mem_sortByDateDesc] at he
  cases hcity : req.city <;> cases hcat : req.category <;>
    rw [hcity, hcat] at he <;>
    simp only [List.mem_filter, beq_iff_eq] at he <;> tauto

theorem paginate_sub {qs : List Event} {req : ListingRequest} {pg : List Event}
    (h : paginate_queryset qs req = Except.ok pg) : ∀ e ∈ pg, e ∈ qs := by
  intro e he
  unfold paginate_queryset at h
  split at h
  · cases h
  · split at h
    · cases h
    · split at h
      · cases h
      · rw [Except.ok.injEq] at h
        subst h
        exact List.drop_subset _ _ (List.take_subset _ _ he)

theorem lookup_mem : ∀ {l : List (String × PageData)} {k : String} {v : PageData},
    l.lookup k = some v → (k, v) ∈ l := by
  intro l
  induction l with
  | nil => intro k v h; cases h
  | cons kv rest ih =>
    intro k v h
    obtain ⟨a, b⟩ := kv
    simp only [List.lookup] at h
    split at h
    · next heq =>
      cases h
      have : k = a := eq_of_beq heq
      subst this
      exact List.mem_cons_self _ _
    · exact List.mem_cons_of_mem _ (ih h)

theorem cacheGet_some {c : Cache} {k : String} {payload : PageData}
    (h : cacheGet c k = some payload) : (k, payload) ∈ c.entries := by
  unfold cacheGet at h
  split at h
  · cases h
  · exact lookup_mem h

theorem cacheSet_preserves {c : Cache} {k : String} {v : PageData}
    (hc : CacheApproved c) (hv : ∀ e ∈ v.results, e.status = "approved") :
    CacheApproved (cacheSet c k v) := by
  unfold cacheSet
  split
  · exact hc
  · intro kv hkv
    rcases List.mem_cons.mp hkv with hkv | hkv
    · subst hkv; exact hv
    · exact hc kv hkv

theorem list_compute_approved (db : List Event) (req : ListingRequest) :
    ∀ e ∈ (list_compute db req).body.results, e.status = "approved" := by
  intro e he
  simp only [list_compute] at he
  cases hp : paginate_queryset (get_queryset db req) req with
  | error u => rw [hp] at he; cases he
  | ok pg =>
    rw [hp] at he
    exact get_queryset_approved db req e (paginate_sub hp e he)

/-- C2: every event returned by the public listing, with any filters
and on any page, has moderation status approved; pending and rejected
events never appear, and the invariant survives the caching layer. -/
theorem C2_listing_only_approved (db : List Event) (c : Cache) (req : ListingRequest)
    (hc : CacheApproved c) :
    (∀ e ∈ (list_endpoint db c req).1.body.results, e.status = "approved") ∧
    CacheApproved (list_endpoint db c req).2 := by
  cases hg : cacheGet c (get_cache_key req) with
  | some payload =>
    simp only [list_endpoint, hg]
    exact ⟨fun e he => hc _ (cacheGet_some hg) e he, hc⟩
  | none =>
    simp only [list_endpoint, hg]
    by_cases hs : (list_compute db req).status = 200
    · rw [if_pos hs]
      exact ⟨list_compute_approved db req,
        cacheSet_preserves hc (list_compute_approved db req)⟩
    · rw [if_neg hs]
      exact ⟨list_compute_approved db req, hc⟩

/-- C2 witness: on the concrete store the endpoint returns only
approved events and preserves the cache invariant. -/
theorem C2_listing_only_approved_witness :
    (∀ e ∈ (list_endpoint dbW cacheW reqW).1.body.results, e.status = "approved") ∧
    CacheApproved (list_endpoint dbW cacheW reqW).2 :=
  C2_listing_only_approved dbW cacheW reqW
    (fun kv hkv => absurd hkv (List.not_mem_nil kv))

/-- C3: a page number beyond the last valid page of the filtered
result set yields HTTP 404 (not an empty 200 and not a 500); the
default page size is 20 and a client-supplied page_size is capped at
100. -/
theorem C3_page_overflow_404 :
    (∀ (db : List Event) (c : Cache) (req : ListingRequest) (n : Nat),
        cacheGet c (get_cache_key req) = none →
        resolve_page_number req.page
            (num_pages (get_queryset db req).length (get_page_size req)) = some n →
        num_pages (get_queryset db req).length (get_page_size req) < n →
        (list_endpoint db c req).1.status = 404) ∧
    (∀ city cat pg, get_page_size
        {city := city, category := cat, page := pg, pageSize := none} = 20) ∧
    (∀ req : ListingRequest, get_page_size req ≤ 100) := by
  refine ⟨?_, ?_, ?_⟩
  · intro db c req n hmiss hres hover
    have hpag : paginate_queryset (get_queryset db req) req = Except.error () := by
      unfold paginate_queryset
      rw [hres]
      by_cases h1 : n < 1
      · simp [h1]
      · simp [h1, hover]
    have hcomp : list_compute db req = {status := 404, body := {count := 0, results := []}} := by
      unfold list_compute
      rw [hpag]
    simp [list_endpoint, hmiss, hcomp]
  · intro city cat pg
    rfl
  · intro req
    cases hps : req.pageSize with
    | none => simp [get_page_size, hps]
    | some s =>
      cases hp : parseNat s with
      | none => simp [get_page_size, hps, hp]
      | some m =>
        by_cases hm : m = 0
        · simp [get_page_size, hps, hp, hm]
        · simp only [get_page_size, hps, hp, if_neg hm]
          omega

/-- C3 witness: page 999 of the two-approved-event store gives 404,
the default page size is 20, and the page size is capped. -/
theorem C3_page_overflow_404_witness :
    (list_endpoint dbW cacheW reqPage999).1.status = 404 ∧
    get_page_size reqW = 20 ∧ get_page_size reqPage999 ≤ 100 :=
  ⟨C3_page_overflow_404.1 dbW cacheW reqPage999 999 (by decide) (by decide) (by decide),
   C3_page_overflow_404.2.1 none none none,
   C3_page_overflow_404.2.2 reqPage999⟩

/-- C7: when the cache store is failing, the listing request is not
failed: the endpoint returns exactly the computed response, the cache
is left untouched, and a request whose pagination succeeds still
returns 200. -/
theorem C7_cache_failure_is_best_effort (db : List Event) (c : Cache) (req : ListingRequest)
    (hf : c.failing = true) :
    list_endpoint db c req = (list_compute db req, c) ∧
    (∀ pg, paginate_queryset (get_queryset db req) req = Except.ok pg →
        (list_endpoint db c req).1.status = 200) := by
  have hget : cacheGet c (get_cache_key req) = none := by
    unfold cacheGet
    rw [hf]
    simp
  have hset : ∀ k v, cacheSet c k v = c := by
    intro k v
    unfold cacheSet
    rw [hf]
    simp
  have hmain : list_endpoint db c req = (list_compute db req, c) := by
    simp only [list_endpoint, hget]
    split
    · rw [hset]
    · rfl
  refine ⟨hmain, ?_⟩
  intro pg hpg
  have hcomp : (list_compute db req).status = 200 := by
    unfold list_compute
    rw [hpg]
  rw [hmain]
  exact hcomp

/-- C7 witness: with a failing cache store the concrete request still
returns the computed response and the cache is unchanged. -/
theorem C7_cache_failure_is_best_effort_witness :
    list_endpoint dbW cacheFailW reqW = (list_compute dbW reqW, cacheFailW) ∧
    (∀ pg, paginate_queryset (get_queryset dbW reqW) reqW = Except.ok pg →
        (list_endpoint dbW cacheFailW reqW).1.status = 200) :=
  C7_cache_failure_is_best_effort dbW cacheFailW reqW rfl

/-- C10: the cache key is a function of city, category and page only,
so two in-TTL requests that agree on those but differ in page_size
share the key, and the second is served the first cached payload
unchanged. -/
theorem C10_cache_key_ignores_page_size
    (db : List Event) (c : Cache) (req1 req2 : ListingRequest)
    (hcity : req1.city = req2.city) (hcat : req1.category = req2.category)
    (hpage : req1.page = req2.page)
    (hlive : c.failing = false)
    (hmiss : cacheGet c (get_cache_key req1) = none)
    (hsucc : (list_compute db req1).status = 200) :
    get_cache_key req1 = get_cache_key req2 ∧
    list_endpoint db (list_endpoint db c req1).2 req2 =
      ({status := 200, body := (list_endpoint db c req1).1.body},
        (list_endpoint db c req1).2) := by
  have hkey : get_cache_key req1 = get_cache_key req2 := by
    unfold get_cache_key
    rw [hcity, hcat, hpage]
  refine ⟨hkey, ?_⟩
  have h1 : list_endpoint db c req1 =
      (list_compute db req1, cacheSet c (get_cache_key req1) (list_compute db req1).body) := by
    simp only [list_endpoint, hmiss]
    rw [if_pos hsucc]
  have hget2 : cacheGet (cacheSet c (get_cache_key req1) (list_compute db req1).body)
      (get_cache_key req2) = some (list_compute db req1).body := by
    rw [← hkey]
    simp [cacheGet, cacheSet, hlive, List.lookup]
  rw [h1]
  simp only [list_endpoint, hget2]

/-- C10 witness: a second request differing only in page_size is served
the cached payload of the first. -/
theorem C10_cache_key_ignores_page_size_witness :
    get_cache_key reqW = get_cache_key reqSize5 ∧
    list_endpoint dbW (list_endpoint dbW cacheW reqW).2 reqSize5 =
      ({status := 200, body := (list_endpoint dbW cacheW reqW).1.body},
        (list_endpoint dbW cacheW reqW).2) :=
  C10_cache_key_ignores_page_size dbW cacheW reqW reqSize5 rfl rfl rfl rfl
    (by decide) (by decide)

/-- C1: the claim says an enabled rotation blacklists the old refresh
token and issues a new one so that a second use fails with 401. The
view never writes the blacklist, and even with the rotation attribute
present it re-sends the same token: reusing the original refresh token
still returns 200 on the second call. -/
theorem C1_refresh_never_rotates_or_blacklists :
    (∀ (hasRotate : Bool) (st : AuthState) (req : TokenRequest),
        (refresh_token_view hasRotate st req).2 = st) ∧
    (refresh_token_view true {blacklist := []}
        {cookieToken := some "rt.alice", bodyToken := none}).1.status = 200 ∧
    (refresh_token_view true {blacklist := []}
        {cookieToken := some "rt.alice", bodyToken := none}).1.newCookie = some "rt.alice" ∧
    (refresh_token_view true
        (refresh_token_view true {blacklist := []}
            {cookieToken := some "rt.alice", bodyToken := none}).2
        {cookieToken := some "rt.alice", bodyToken := none}).1.status = 200 := by
  refine ⟨?_, by decide, by decide, by decide⟩
  intro hr st req
  unfold refresh_token_view
  split
  · rfl
  · split
    · rfl
    · rfl

/-- C5: a successful login returns a 200 whose body carries the access
token and never the refresh token; the refresh token is delivered only
through an httpOnly, SameSite Lax cookie scoped to /api/auth/ with a
seven-day max age. -/
theorem C5_login_refresh_token_cookie_only (uid : Nat) (host : String) :
    (custom_login_post true uid host).status = 200 ∧
    (custom_login_post true uid host).bodyAccess = some ("acc." ++ toString uid) ∧
    (custom_login_post true uid host).bodyRefresh = none ∧
    (custom_login_post true uid host).cookie =
      some {value := "rt." ++ toString uid, maxAge := 7 * 24 * 60 * 60, httpOnly := true,
            secureFlag := !(startsChars "localhost".toList host.toList),
            sameSite := "Lax", path := "/api/auth/"} := by
  have hne : ("rt." ++ toString uid) ≠ "" := by
    intro h
    have hlen := congrArg String.length h
    rw [String.length_append] at hlen
    have h3 : "rt.".length = 3 := rfl
    have h0 : "".length = 0 := rfl
    rw [h3, h0] at hlen
    omega
  simp only [custom_login_post, super_token_obtain_post, if_true]
  rw [if_neg hne]
  exact ⟨rfl, rfl, rfl, rfl⟩

/-- C8 counterexample: a logout request carrying an unparseable refresh
token, for which the revoke fails, returns 400 and does not clear the
cookie, contrary to the claim that the cookie is cleared regardless of
the revoke outcome. -/
theorem C8_failed_revoke_keeps_cookie_cex :
    (logout_view {blacklist := []} {cookieToken := none, bodyToken := some "garbage"} false).1
      = {status := 400, cookieCleared := false} := by decide

/-- C8 amended: a logout with no token in cookie or body yields 400; a
fully successful revoke yields 200, clears the cookie and blacklists
the token; when the token cannot be validated or the blacklist write
fails, the view returns 400 and the cookie is not cleared. -/
theorem C8_logout_clears_cookie_only_on_success (st : AuthState) (req : TokenRequest)
    (bf : Bool) :
    (pick_token req.cookieToken req.bodyToken = none →
      logout_view st req bf = ({status := 400, cookieCleared := false}, st)) ∧
    (∀ tok jti, pick_token req.cookieToken req.bodyToken = some tok →
      refresh_token_init st tok = some jti → bf = false →
      logout_view st req bf =
        ({status := 200, cookieCleared := true}, {blacklist := jti :: st.blacklist})) ∧
    (∀ tok, pick_token req.cookieToken req.bodyToken = some tok →
      (refresh_token_init st tok = none ∨ bf = true) →
      (logout_view st req bf).1 = {status := 400, cookieCleared := false}) := by
  refine ⟨?_, ?_, ?_⟩
  · intro h
    simp [logout_view, h]
  · intro tok jti h1 h2 h3
    simp [logout_view, h1, h2, h3]
  · intro tok h1 h2
    rcases h2 with h2 | h2
    · simp [logout_view, h1, h2]
    · cases hi : refresh_token_init st tok with
      | none => simp [logout_view, h1, hi]
      | some jti => simp [logout_view, h1, hi, h2]

/-- C8 witness: a logout with no token at all returns 400 without
touching the state. -/
theorem C8_logout_clears_cookie_only_on_success_witness :
    logout_view {blacklist := []} {cookieToken := none, bodyToken := none} false
      = ({status := 400, cookieCleared := false}, {blacklist := []}) :=
  (C8_logout_clears_cookie_only_on_success {blacklist := []}
    {cookieToken := none, bodyToken := none} false).1 rfl

/-- C4 counterexample: a valid payload whose profile write fails leaves
the User row committed with no Profile row and returns 500: the two
writes are not atomic. -/
theorem C4_registration_not_atomic_cex :
    (register_view regDB0 regDataW true).1.status = 500 ∧
    (register_view regDB0 regDataW true).2.users = ["vendor@example.com"] ∧
    (register_view regDB0 regDataW true).2.profiles = [] := by decide

/-- C4 amended: registration performs two sequential writes with no
transactional boundary: on success both the User row and the Profile
row (role forced to vendor) exist; when the profile write fails the
endpoint returns 500 and the User row persists while the profile table
is unchanged. -/
theorem C4_registration_two_sequential_writes (db : RegDB) (d : RegData) (pf : Bool)
    (hv : serializer_errors db d = []) :
    (pf = false →
      register_view db d pf =
        ({status := 201, errors := []},
          {users := d.email :: db.users, profiles := (d.email, "vendor") :: db.profiles})) ∧
    (pf = true →
      register_view db d pf =
        ({status := 500, errors := []},
          {users := d.email :: db.users, profiles := db.profiles})) := by
  constructor
  · intro h
    subst h
    simp [register_view, hv, serializer_create]
  · intro h
    subst h
    simp [register_view, hv, serializer_create]

/-- C4 witness: a clean registration on an empty store creates both
rows, and the theorem applies at that input. -/
theorem C4_registration_two_sequential_writes_witness :
    register_view regDB0 regDataW false =
      ({status := 201, errors := []},
        {users := ["vendor@example.com"], profiles := [("vendor@example.com", "vendor")]}) :=
  (C4_registration_two_sequential_writes regDB0 regDataW false (by decide)).1 rfl

theorem msgUpper_mem {p : String} (h : p.toList.any (fun c => c.isUpper) = false) :
    msgUpper ∈ validate_password_errors p := by
  unfold validate_password_errors customPasswordErrors
  rw [h]
  refine List.mem_append.mpr (Or.inl ?_)
  refine List.mem_append.mpr (Or.inl ?_)
  refine List.mem_append.mpr (Or.inl ?_)
  refine List.mem_append.mpr (Or.inr ?_)
  rw [if_neg Bool.false_ne_true]
  exact List.mem_cons_self _ _

theorem msgLower_mem {p : String} (h : p.toList.any (fun c => c.isLower) = false) :
    msgLower ∈ validate_password_errors p := by
  unfold validate_password_errors customPasswordErrors
  rw [h]
  refine List.mem_append.mpr (Or.inl ?_)
  refine List.mem_append.mpr (Or.inl ?_)
  refine List.mem_append.mpr (Or.inr ?_)
  rw [if_neg Bool.false_ne_true]
  exact List.mem_cons_self _ _

theorem msgDigit_mem {p : String} (h : p.toList.any (fun c => c.isDigit) = false) :
    msgDigit ∈ validate_password_errors p := by
  unfold validate_password_errors customPasswordErrors
  rw [h]
  refine List.mem_append.mpr (Or.inl ?_)
  refine List.mem_append.mpr (Or.inr ?_)
  rw [if_neg Bool.false_ne_true]
  exact List.mem_cons_self _ _

theorem msgCommon_mem {p : String}
    (h : commonPasswords.contains (lowerString p) = true) :
    msgCommon ∈ validate_password_errors p := by
  unfold validate_password_errors commonPasswordErrors
  refine List.mem_append.mpr (Or.inr ?_)
  rw [if_pos h]
  exact List.mem_cons_self _ _

theorem passwordFieldErrors_ne_nil {p : String}
    (h : p.length < 8 ∨ p.toList.any (fun c => c.isUpper) = false ∨
         p.toList.any (fun c => c.isLower) = false ∨
         p.toList.any (fun c => c.isDigit) = false ∨
         commonPasswords.contains (lowerString p) = true) :
    passwordFieldErrors p ≠ [] := by
  unfold passwordFieldErrors
  by_cases hb : p = ""
  · rw [if_pos hb]
    exact List.cons_ne_nil _ _
  · rw [if_neg hb]
    by_cases hl : p.length < 8
    · rw [if_pos hl]
      exact List.cons_ne_nil _ _
    · rw [if_neg hl]
      rcases h with h | h | h | h | h
      · exact absurd h hl
      · exact List.ne_nil_of_mem (msgUpper_mem h)
      · exact List.ne_nil_of_mem (msgLower_mem h)
      · exact List.ne_nil_of_mem (msgDigit_mem h)
      · exact List.ne_nil_of_mem (msgCommon_mem h)

/-- C6 counterexample: the password "abc" violates the length, uppercase
and digit constraints, yet the error detail holds only the field-level
minimum-length message: the violated constraints are not all
enumerated. -/
theorem C6_short_password_single_error_cex :
    passwordFieldErrors "abc" = [msgMinLength] ∧
    ("abc".toList.any (fun c => c.isUpper)) = false ∧
    ("abc".toList.any (fun c => c.isDigit)) = false ∧
    msgUpper ∉ passwordFieldErrors "abc" ∧
    msgDigit ∉ passwordFieldErrors "abc" ∧
    (register_view regDB0
        {regDataW with password := "abc", passwordConfirm := "abc"} false).1.status = 400 := by
  decide

/-- C6 amended: every password violating the length, character-class or
common-password constraints is rejected with 400; for passwords of
length at least 8 the detail enumerates every violated constraint, but
a shorter password is reported only through the field-level minimum
length message, which short-circuits the remaining password
validators. -/
theorem C6_password_errors_enumerated_unless_short (db : RegDB) (d : RegData) (pf : Bool)
    (p : String) :
    ((d.password.length < 8 ∨
        d.password.toList.any (fun c => c.isUpper) = false ∨
        d.password.toList.any (fun c => c.isLower) = false ∨
        d.password.toList.any (fun c => c.isDigit) = false ∨
        commonPasswords.contains (lowerString d.password) = true) →
      (register_view db d pf).1.status = 400) ∧
    (8 ≤ p.length →
      (p.toList.any (fun c => c.isUpper) = false → msgUpper ∈ passwordFieldErrors p) ∧
      (p.toList.any (fun c => c.isLower) = false → msgLower ∈ passwordFieldErrors p) ∧
      (p.toList.any (fun c => c.isDigit) = false → msgDigit ∈ passwordFieldErrors p) ∧
      (commonPasswords.contains (lowerString p) = true → msgCommon ∈ passwordFieldErrors p)) ∧
    (p ≠ "" → p.length < 8 → passwordFieldErrors p = [msgMinLength]) := by
  refine ⟨?_, ?_, ?_⟩
  · intro hdis
    have hpw := passwordFieldErrors_ne_nil hdis
    have hfe : registration_field_errors db d ≠ [] := by
      intro hnil
      unfold registration_field_errors at hnil
      rw [List.append_eq_nil, List.append_eq_nil, List.append_eq_nil] at hnil
      exact hpw hnil.1.1.2
    have hse : serializer_errors db d ≠ [] := by
      unfold serializer_errors
      rw [if_neg hfe]
      exact hfe
    unfold register_view
    rw [if_neg hse]
  · intro h8
    have hb : p ≠ "" := by
      intro he
      subst he
      have h0 : ("" : String).length = 0 := rfl
      omega
    have hl : ¬ p.length < 8 := by omega
    have hpf : passwordFieldErrors p = validate_password_errors p := by
      unfold passwordFieldErrors
      rw [if_neg hb, if_neg hl]
    refine ⟨?_, ?_, ?_, ?_⟩ <;> intro h <;> rw [hpf]
    · exact msgUpper_mem h
    · exact msgLower_mem h
    · exact msgDigit_mem h
    · exact msgCommon_mem h
  · intro hb hl
    unfold passwordFieldErrors
    rw [if_neg hb, if_pos hl]

/-- C6 witness: the password "Password" (length 8, no digit, and a
common password once lowercased) is rejected with 400 and its detail
holds both the digit and the common-password messages. -/
theorem C6_password_errors_enumerated_unless_short_witness :
    (register_view regDB0
        {regDataW with password := "Password", passwordConfirm := "Password"}
        false).1.status = 400 ∧
    msgDigit ∈ passwordFieldErrors "Password" ∧
    msgCommon ∈ passwordFieldErrors "Password" :=
  ⟨(C6_password_errors_enumerated_unless_short regDB0
      {regDataW with password := "Password", passwordConfirm := "Password"}
      false "Password").1 (by decide),
   ((C6_password_errors_enumerated_unless_short regDB0 regDataW false "Password").2.1
      (by decide)).2.2.1 (by decide),
   ((C6_password_errors_enumerated_unless_short regDB0 regDataW false "Password").2.1
      (by decide)).2.2.2 (by decide)⟩

/-- C9 counterexample: a user with no first or last name but a nonempty
organization name receives the username as the token display-name
claim, not the organization name required by the claimed resolution. -/
theorem C9_token_name_skips_organization_cex :
    token_claim_name userOrgOnly = "org@example.com" ∧
    display_name userOrgOnly = "Acme Events" ∧
    token_claim_name userOrgOnly ≠ display_name userOrgOnly := by decide

/-- C9 amended: the token display-name claim never consults the
organization name: it is user.get_full_name() when nonempty, otherwise
the login identifier; the three-way resolution with the organization
fallback belongs to UserProfile.display_name (and the serializer name
field), not to the token claims. -/
theorem C9_token_name_ignores_organization (u : UserRec) (o1 o2 : String) :
    token_claim_name {u with organizationName := o1} =
      token_claim_name {u with organizationName := o2} ∧
    (u.firstName = "" → u.lastName = "" → token_claim_name u = u.username) ∧
    (u.firstName = "" → u.lastName = "" → u.organizationName ≠ "" →
      display_name u = u.organizationName) := by
  refine ⟨rfl, ?_, ?_⟩
  · intro hf hl
    unfold token_claim_name get_full_name
    rw [hf, hl]
    have h : pythonStrip ("" ++ " " ++ "") = "" := by decide
    rw [if_pos h]
  · intro hf hl ho
    simp [display_name, hf, hl, ho]

/-- C9 witness: the amended theorem applied to the concrete
organization-only user gives the username as the token name. -/
theorem C9_token_name_ignores_organization_witness :
    token_claim_name userOrgOnly = userOrgOnly.username :=
  (C9_token_name_ignores_organization userOrgOnly "A" "B").2.1 rfl rfl

end Culturalite
